import Mathlib

/-!
Shallow embedding of the SageMaker accept-type and instance-type accessor
modules (`accept_types.py`, `instance_types.py`).

The accessors validate their inputs and delegate to an external resolver
(the `artifacts` module) after checking the model identifier with
`jumpstart_utils.is_jumpstart_model_input`.  Both collaborators are opaque to
this module, so they are modelled as records of functions supplied as
parameters; each accessor additionally returns the list of resolver calls it
performed, so that "the resolver is never called" is a statement about the
returned list.  Fallible functions return `Except String α`, the error string
being the `ValueError` message.
-/

/-- Python's `s.split(".")` on a list of characters: splits at every
occurrence of the separator, keeping empty segments, so that the result always
has one more element than the number of separators. -/
def splitOnChar (sep : Char) : List Char → List (List Char)
  | [] => [[]]
  | c :: rest =>
    if c = sep then [] :: splitOnChar sep rest
    else
      match splitOnChar sep rest with
      | [] => [[c]]
      | seg :: segs => (c :: seg) :: segs

/-- Python's `instance_type.split(".")` as a function on strings. -/
def pySplitDot (s : String) : List String :=
  (splitOnChar '.' s.toList).map List.asString

/-- Python's `"d" in family` for the single-character needle: true iff the
character occurs anywhere in the string. -/
def containsChar (c : Char) (s : String) : Bool :=
  s.toList.contains c

/-- Python's `family.startswith("g5")`-style check: true iff `pre` is a
prefix of `s`. -/
def strStartsWith (pre s : String) : Bool :=
  pre.toList.isPrefixOf s.toList

/-- The message of the `ValueError` raised inside the `try` block of
`volume_size_supported` when the shape check fails. -/
def instanceTypeShapeError : String :=
  "Instance type must have 2 periods and start with 'ml'."

/-- The wrapping message built by the `except` clause of
`volume_size_supported` (the f-string
`f"Failed to parse instance type '{instance_type}': {str(e)}"`). -/
def parseFailureMessage (instance_type inner : String) : String :=
  "Failed to parse instance type '" ++ instance_type ++ "': " ++ inner

/-- The body of the `try` block of `volume_size_supported`: shape check, then
the family exclusion rule (`"d" not in family and not family.startswith("g5")`). -/
def volumeSizeSupportedBody (instance_type : String) : Except String Bool :=
  let parts := pySplitDot instance_type
  if parts.length != 3 || parts[0]! != "ml" then
    .error instanceTypeShapeError
  else
    let family := parts[1]!
    .ok (!(containsChar 'd' family) && !(strStartsWith "g5" family))

/-- `instance_types.volume_size_supported`: runs the body and rewraps any
failure into a `ValueError` whose message embeds the original string and the
underlying failure text. -/
def volume_size_supported (instance_type : String) : Except String Bool :=
  match volumeSizeSupportedBody instance_type with
  | .ok b => .ok b
  | .error e => .error (parseFailureMessage instance_type e)

/-- The `jumpstart_utils` collaborator: a single boolean capability deciding
whether a (model_id, model_version) pair is a legitimate catalog reference. -/
structure JumpstartUtils where
  is_jumpstart_model_input : Option String → Option String → Bool

/-- One invocation of the external `artifacts` resolver, recording the
capability used and every argument passed to it. -/
inductive ResolverCall where
  | supportedAcceptTypes (model_id model_version region : Option String)
      (tolerate_vulnerable_model tolerate_deprecated_model : Bool)
  | defaultAcceptType (model_id model_version region : Option String)
      (tolerate_vulnerable_model tolerate_deprecated_model : Bool)
  | defaultInstanceType (model_id model_version scope region : Option String)
      (tolerate_vulnerable_model tolerate_deprecated_model : Bool)
  | instanceTypes (model_id model_version scope region : Option String)
      (tolerate_vulnerable_model tolerate_deprecated_model : Bool)
  deriving DecidableEq

/-- The `artifacts` collaborator: the four resolver capabilities the
accessors delegate to. -/
structure Artifacts where
  retrieve_supported_accept_types :
    Option String → Option String → Option String → Bool → Bool → List String
  retrieve_default_accept_type :
    Option String → Option String → Option String → Bool → Bool → String
  retrieve_default_instance_type :
    Option String → Option String → Option String → Option String → Bool → Bool → String
  retrieve_instance_types :
    Option String → Option String → Option String → Option String → Bool → Bool → List String

/-- Message of the `ValueError` raised by the accept-type accessors when the
model identifier is invalid. -/
def acceptTypesIdentifierError : String :=
  "Must specify JumpStart `model_id` and `model_version` when retrieving accept types."

/-- Message of the `ValueError` raised by the instance-type accessors when the
model identifier is invalid. -/
def instanceTypesIdentifierError : String :=
  "Must specify JumpStart `model_id` and `model_version` when retrieving instance types."

/-- Message of the `ValueError` raised by the instance-type accessors when
`scope` is `None`. -/
def scopeError : String :=
  "Must specify scope for instance types."

namespace accept_types

/-- `accept_types.retrieve_options`: validate the model identifier, then
delegate to `artifacts._retrieve_supported_accept_types`. -/
def retrieve_options (utils : JumpstartUtils) (arts : Artifacts)
    (region model_id model_version : Option String)
    (tolerate_vulnerable_model tolerate_deprecated_model : Bool) :
    Except String (List String) × List ResolverCall :=
  if !(utils.is_jumpstart_model_input model_id model_version) then
    (.error acceptTypesIdentifierError, [])
  else
    (.ok (arts.retrieve_supported_accept_types model_id model_version region
        tolerate_vulnerable_model tolerate_deprecated_model),
     [.supportedAcceptTypes model_id model_version region
        tolerate_vulnerable_model tolerate_deprecated_model])

/-- `accept_types.retrieve_default`: validate the model identifier, then
delegate to `artifacts._retrieve_default_accept_type`. -/
def retrieve_default (utils : JumpstartUtils) (arts : Artifacts)
    (region model_id model_version : Option String)
    (tolerate_vulnerable_model tolerate_deprecated_model : Bool) :
    Except String String × List ResolverCall :=
  if !(utils.is_jumpstart_model_input model_id model_version) then
    (.error acceptTypesIdentifierError, [])
  else
    (.ok (arts.retrieve_default_accept_type model_id model_version region
        tolerate_vulnerable_model tolerate_deprecated_model),
     [.defaultAcceptType model_id model_version region
        tolerate_vulnerable_model tolerate_deprecated_model])

end accept_types

namespace instance_types

/-- `instance_types.retrieve_default`: validate the model identifier, require
a non-null scope, then delegate to `artifacts._retrieve_default_instance_type`. -/
def retrieve_default (utils : JumpstartUtils) (arts : Artifacts)
    (region model_id model_version scope : Option String)
    (tolerate_vulnerable_model tolerate_deprecated_model : Bool) :
    Except String String × List ResolverCall :=
  if !(utils.is_jumpstart_model_input model_id model_version) then
    (.error instanceTypesIdentifierError, [])
  else if scope.isNone then
    (.error scopeError, [])
  else
    (.ok (arts.retrieve_default_instance_type model_id model_version scope region
        tolerate_vulnerable_model tolerate_deprecated_model),
     [.defaultInstanceType model_id model_version scope region
        tolerate_vulnerable_model tolerate_deprecated_model])

/-- `instance_types.retrieve`: validate the model identifier, require a
non-null scope, then delegate to `artifacts._retrieve_instance_types`. -/
def retrieve (utils : JumpstartUtils) (arts : Artifacts)
    (region model_id model_version scope : Option String)
    (tolerate_vulnerable_model tolerate_deprecated_model : Bool) :
    Except String (List String) × List ResolverCall :=
  if !(utils.is_jumpstart_model_input model_id model_version) then
    (.error instanceTypesIdentifierError, [])
  else if scope.isNone then
    (.error scopeError, [])
  else
    (.ok (arts.retrieve_instance_types model_id model_version scope region
        tolerate_vulnerable_model tolerate_deprecated_model),
     [.instanceTypes model_id model_version scope region
        tolerate_vulnerable_model tolerate_deprecated_model])

end instance_types

instance {α β : Type} [DecidableEq α] [DecidableEq β] : DecidableEq (Except α β)
  | .error a, .error b =>
    if h : a = b then isTrue (by rw [h]) else isFalse (by simp [h])
  | .error _, .ok _ => isFalse (by simp)
  | .ok _, .error _ => isFalse (by simp)
  | .ok a, .ok b =>
    if h : a = b then isTrue (by rw [h]) else isFalse (by simp [h])

/-- Substring containment on strings: `needle` occurs contiguously in `hay`. -/
def strContains (needle hay : String) : Prop :=
  ∃ a b, hay = a ++ needle ++ b

/-- A model-identifier validator accepting every pair, for concrete runs. -/
def sampleValidUtils : JumpstartUtils := ⟨fun _ _ => true⟩

/-- A model-identifier validator rejecting every pair, for concrete runs. -/
def sampleInvalidUtils : JumpstartUtils := ⟨fun _ _ => false⟩

/-- A concrete resolver with fixed answers, for concrete runs. -/
def sampleArtifacts : Artifacts where
  retrieve_supported_accept_types := fun _ _ _ _ _ => ["application/json"]
  retrieve_default_accept_type := fun _ _ _ _ _ => "application/json"
  retrieve_default_instance_type := fun _ _ _ _ _ _ => "ml.p2.xlarge"
  retrieve_instance_types := fun _ _ _ _ _ _ => ["ml.p2.xlarge", "ml.p3.2xlarge"]

theorem strAppendAssoc (a b c : String) : a ++ b ++ c = a ++ (b ++ c) := by
  apply String.ext
  simp [String.data_append]

theorem strAppendEmpty (a : String) : a ++ "" = a := by
  apply String.ext
  simp [String.data_append]

/-- C1: for every instance-type string that splits on '.' into exactly three
segments whose first segment is "ml", `volume_size_supported` returns `true`
iff the second segment (the family) contains no 'd' character and does not
start with the prefix "g5". -/
theorem volume_size_supported_family_rule (s : String)
    (h3 : (pySplitDot s).length = 3) (hml : (pySplitDot s)[0]! = "ml") :
    volume_size_supported s = .ok true ↔
      containsChar 'd' ((pySplitDot s)[1]!) = false ∧
      strStartsWith "g5" ((pySplitDot s)[1]!) = false := by
  simp [volume_size_supported, volumeSizeSupportedBody, h3, hml]

/-- C1 witness: the rule evaluated at "ml.m5.large". -/
theorem volume_size_supported_family_rule_witness :
    (pySplitDot "ml.m5.large").length = 3 ∧
    (pySplitDot "ml.m5.large")[0]! = "ml" ∧
    volume_size_supported "ml.m5.large" = .ok true :=
  ⟨by decide, by decide,
    (volume_size_supported_family_rule "ml.m5.large" (by decide) (by decide)).mpr
      (by decide)⟩

/-- C2: for every instance-type string that does not split on '.' into exactly
three segments with first segment "ml", `volume_size_supported` fails with a
`ValueError` whose message contains the original input string and the
underlying parse-failure text, and does not return a boolean. -/
theorem volume_size_supported_malformed (s : String)
    (h : ¬((pySplitDot s).length = 3 ∧ (pySplitDot s)[0]! = "ml")) :
    volume_size_supported s =
      .error (parseFailureMessage s instanceTypeShapeError) ∧
    strContains s (parseFailureMessage s instanceTypeShapeError) ∧
    strContains instanceTypeShapeError (parseFailureMessage s instanceTypeShapeError) := by
  have hc : ((pySplitDot s).length != 3 || (pySplitDot s)[0]! != "ml") = true := by
    simp only [Bool.or_eq_true, bne_iff_ne, ne_eq]
    tauto
  refine ⟨?_, ?_, ?_⟩
  · simp [volume_size_supported, volumeSizeSupportedBody, hc]
  · exact ⟨"Failed to parse instance type '", "': " ++ instanceTypeShapeError,
      by simp [parseFailureMessage, strAppendAssoc]⟩
  · exact ⟨"Failed to parse instance type '" ++ s ++ "': ", "",
      by simp [parseFailureMessage, strAppendEmpty]⟩

/-- C2 witness: the failure evaluated at "invalid-type". -/
theorem volume_size_supported_malformed_witness :
    ¬((pySplitDot "invalid-type").length = 3 ∧
        (pySplitDot "invalid-type")[0]! = "ml") ∧
    volume_size_supported "invalid-type" =
      .error (parseFailureMessage "invalid-type" instanceTypeShapeError) :=
  ⟨by decide, (volume_size_supported_malformed "invalid-type" (by decide)).1⟩

/-- C7: the four concrete examples of the volume-size rule. -/
theorem volume_size_supported_examples :
    volume_size_supported "ml.c5d.xlarge" = .ok false ∧
    volume_size_supported "ml.g5.2xlarge" = .ok false ∧
    volume_size_supported "ml.p3.2xlarge" = .ok true ∧
    volume_size_supported "ml.m5.large" = .ok true := by
  refine ⟨by decide, by decide, by decide, by decide⟩

/-- C8: empty segments are accepted: "ml..xlarge" (empty family) and "ml.m5."
(empty size) do not fail, and the empty family yields `true`. -/
theorem volume_size_supported_empty_segments :
    volume_size_supported "ml..xlarge" = .ok true ∧
    volume_size_supported "ml.m5." = .ok true := by
  refine ⟨by decide, by decide⟩

/-- C9: the exclusion rule is case-sensitive: an uppercase 'D' in the family,
or an uppercase "G5" family, does not trigger the exclusion. -/
theorem volume_size_supported_case_sensitive :
    volume_size_supported "ml.C5D.xlarge" = .ok true ∧
    volume_size_supported "ml.G5.xlarge" = .ok true := by
  refine ⟨by decide, by decide⟩

/-- C3 counterexample: `volume_size_supported` takes no model identifier, so
it does not fail when the identifier-validity check returns false: with a
validator rejecting every pair (in particular (None, None)), it still returns
a boolean on a well-formed instance type. -/
theorem volume_size_ignores_model_identifier :
    sampleInvalidUtils.is_jumpstart_model_input none none = false ∧
    volume_size_supported "ml.m5.large" = .ok true :=
  ⟨rfl, by decide⟩

/-- C3 (amended): for every (model_id, model_version) pair rejected by the
identifier-validity check, each of the four resolver-backed public functions
fails with the identifier `ValueError` and the external resolver is never
called (the call log is empty); `volume_size_supported` is independent of the
model identifier and never calls the resolver. -/
theorem resolver_backed_reject_invalid_identifier
    (utils : JumpstartUtils) (arts : Artifacts)
    (region model_id model_version scope : Option String)
    (tolerate_vulnerable_model tolerate_deprecated_model : Bool)
    (h : utils.is_jumpstart_model_input model_id model_version = false) :
    accept_types.retrieve_options utils arts region model_id model_version
        tolerate_vulnerable_model tolerate_deprecated_model
      = (.error acceptTypesIdentifierError, []) ∧
    accept_types.retrieve_default utils arts region model_id model_version
        tolerate_vulnerable_model tolerate_deprecated_model
      = (.error acceptTypesIdentifierError, []) ∧
    instance_types.retrieve_default utils arts region model_id model_version scope
        tolerate_vulnerable_model tolerate_deprecated_model
      = (.error instanceTypesIdentifierError, []) ∧
    instance_types.retrieve utils arts region model_id model_version scope
        tolerate_vulnerable_model tolerate_deprecated_model
      = (.error instanceTypesIdentifierError, []) := by
  refine ⟨?_, ?_, ?_, ?_⟩ <;>
    simp [accept_types.retrieve_options, accept_types.retrieve_default,
      instance_types.retrieve_default, instance_types.retrieve, h]

/-- C3 witness: the amended statement at a rejecting validator. -/
theorem resolver_backed_reject_invalid_identifier_witness :
    sampleInvalidUtils.is_jumpstart_model_input (some "model") (some "1.0.0") = false ∧
    accept_types.retrieve_options sampleInvalidUtils sampleArtifacts none
        (some "model") (some "1.0.0") false false
      = (.error acceptTypesIdentifierError, []) ∧
    instance_types.retrieve sampleInvalidUtils sampleArtifacts none
        (some "model") (some "1.0.0") (some "training") false false
      = (.error instanceTypesIdentifierError, []) := by
  have h := resolver_backed_reject_invalid_identifier sampleInvalidUtils
    sampleArtifacts none (some "model") (some "1.0.0") (some "training")
    false false rfl
  exact ⟨rfl, h.1, h.2.2.2⟩

/-- C4: with a valid model identifier but `scope = None`, both instance-type
accessors fail with the missing-scope `ValueError` and the resolver is never
called. -/
theorem instance_types_require_scope
    (utils : JumpstartUtils) (arts : Artifacts)
    (region model_id model_version : Option String)
    (tolerate_vulnerable_model tolerate_deprecated_model : Bool)
    (h : utils.is_jumpstart_model_input model_id model_version = true) :
    instance_types.retrieve_default utils arts region model_id model_version none
        tolerate_vulnerable_model tolerate_deprecated_model
      = (.error scopeError, []) ∧
    instance_types.retrieve utils arts region model_id model_version none
        tolerate_vulnerable_model tolerate_deprecated_model
      = (.error scopeError, []) := by
  refine ⟨?_, ?_⟩ <;>
    simp [instance_types.retrieve_default, instance_types.retrieve, h]

/-- C4 witness: the missing-scope failure at an accepting validator. -/
theorem instance_types_require_scope_witness :
    sampleValidUtils.is_jumpstart_model_input (some "model") (some "1.0.0") = true ∧
    instance_types.retrieve_default sampleValidUtils sampleArtifacts none
        (some "model") (some "1.0.0") none false false
      = (.error scopeError, []) :=
  ⟨rfl, (instance_types_require_scope sampleValidUtils sampleArtifacts none
    (some "model") (some "1.0.0") false false rfl).1⟩

/-- C5: when the identifier check fails and `scope = None`, the error raised
by both instance-type accessors is the invalid-identifier one (which names
`model_id` and `model_version`), not the missing-scope one: the identifier
check runs first and the resolver is never called. -/
theorem identifier_check_precedes_scope_check
    (utils : JumpstartUtils) (arts : Artifacts)
    (region model_id model_version : Option String)
    (tolerate_vulnerable_model tolerate_deprecated_model : Bool)
    (h : utils.is_jumpstart_model_input model_id model_version = false) :
    instance_types.retrieve_default utils arts region model_id model_version none
        tolerate_vulnerable_model tolerate_deprecated_model
      = (.error instanceTypesIdentifierError, []) ∧
    instance_types.retrieve utils arts region model_id model_version none
        tolerate_vulnerable_model tolerate_deprecated_model
      = (.error instanceTypesIdentifierError, []) ∧
    instanceTypesIdentifierError ≠ scopeError ∧
    strContains "`model_id`" instanceTypesIdentifierError ∧
    strContains "`model_version`" instanceTypesIdentifierError := by
  refine ⟨?_, ?_, by decide, ?_, ?_⟩
  · simp [instance_types.retrieve_default, h]
  · simp [instance_types.retrieve, h]
  · exact ⟨"Must specify JumpStart ",
      " and `model_version` when retrieving instance types.", by decide⟩
  · exact ⟨"Must specify JumpStart `model_id` and ",
      " when retrieving instance types.", by decide⟩

/-- C5 witness: the identifier error wins over the scope error at a rejecting
validator with null scope. -/
theorem identifier_check_precedes_scope_check_witness :
    sampleInvalidUtils.is_jumpstart_model_input none none = false ∧
    instance_types.retrieve_default sampleInvalidUtils sampleArtifacts none
        none none none false false
      = (.error instanceTypesIdentifierError, []) :=
  ⟨rfl, (identifier_check_precedes_scope_check sampleInvalidUtils
    sampleArtifacts none none none false false rfl).1⟩

/-- C6: with a valid model identifier (and a non-null scope for the
instance-type accessors), each resolver-backed accessor returns exactly the
resolver capability applied to its arguments unmodified, and logs exactly that
one call. -/
theorem accessors_pass_through_to_resolver
    (utils : JumpstartUtils) (arts : Artifacts)
    (region model_id model_version : Option String) (scope : String)
    (tolerate_vulnerable_model tolerate_deprecated_model : Bool)
    (h : utils.is_jumpstart_model_input model_id model_version = true) :
    accept_types.retrieve_options utils arts region model_id model_version
        tolerate_vulnerable_model tolerate_deprecated_model
      = (.ok (arts.retrieve_supported_accept_types model_id model_version region
            tolerate_vulnerable_model tolerate_deprecated_model),
         [.supportedAcceptTypes model_id model_version region
            tolerate_vulnerable_model tolerate_deprecated_model]) ∧
    accept_types.retrieve_default utils arts region model_id model_version
        tolerate_vulnerable_model tolerate_deprecated_model
      = (.ok (arts.retrieve_default_accept_type model_id model_version region
            tolerate_vulnerable_model tolerate_deprecated_model),
         [.defaultAcceptType model_id model_version region
            tolerate_vulnerable_model tolerate_deprecated_model]) ∧
    instance_types.retrieve_default utils arts region model_id model_version
        (some scope) tolerate_vulnerable_model tolerate_deprecated_model
      = (.ok (arts.retrieve_default_instance_type model_id model_version
            (some scope) region tolerate_vulnerable_model tolerate_deprecated_model),
         [.defaultInstanceType model_id model_version (some scope) region
            tolerate_vulnerable_model tolerate_deprecated_model]) ∧
    instance_types.retrieve utils arts region model_id model_version
        (some scope) tolerate_vulnerable_model tolerate_deprecated_model
      = (.ok (arts.retrieve_instance_types model_id model_version (some scope)
            region tolerate_vulnerable_model tolerate_deprecated_model),
         [.instanceTypes model_id model_version (some scope) region
            tolerate_vulnerable_model tolerate_deprecated_model]) := by
  refine ⟨?_, ?_, ?_, ?_⟩ <;>
    simp [accept_types.retrieve_options, accept_types.retrieve_default,
      instance_types.retrieve_default, instance_types.retrieve, h]

/-- C6 witness: the pass-through evaluated at a concrete resolver. -/
theorem accessors_pass_through_to_resolver_witness :
    sampleValidUtils.is_jumpstart_model_input (some "model") (some "1.0.0") = true ∧
    accept_types.retrieve_options sampleValidUtils sampleArtifacts
        (some "us-west-2") (some "model") (some "1.0.0") false true
      = (.ok ["application/json"],
         [.supportedAcceptTypes (some "model") (some "1.0.0")
            (some "us-west-2") false true]) ∧
    instance_types.retrieve_default sampleValidUtils sampleArtifacts
        (some "us-west-2") (some "model") (some "1.0.0") (some "inference")
        false true
      = (.ok "ml.p2.xlarge",
         [.defaultInstanceType (some "model") (some "1.0.0") (some "inference")
            (some "us-west-2") false true]) := by
  have h := accessors_pass_through_to_resolver sampleValidUtils sampleArtifacts
    (some "us-west-2") (some "model") (some "1.0.0") "inference" false true rfl
  exact ⟨rfl, h.1, h.2.2.1⟩

/-- C10: the instance-type accessors do not validate `scope` against the
enumeration {training, inference}: any non-null scope string, "bogus"
included, raises no local error and is passed through to the resolver
unchanged. -/
theorem scope_not_validated_against_enumeration
    (utils : JumpstartUtils) (arts : Artifacts)
    (region model_id model_version : Option String) (scope : String)
    (tolerate_vulnerable_model tolerate_deprecated_model : Bool)
    (h : utils.is_jumpstart_model_input model_id model_version = true) :
    instance_types.retrieve_default utils arts region model_id model_version
        (some scope) tolerate_vulnerable_model tolerate_deprecated_model
      = (.ok (arts.retrieve_default_instance_type model_id model_version
            (some scope) region tolerate_vulnerable_model tolerate_deprecated_model),
         [.defaultInstanceType model_id model_version (some scope) region
            tolerate_vulnerable_model tolerate_deprecated_model]) ∧
    instance_types.retrieve utils arts region model_id model_version
        (some scope) tolerate_vulnerable_model tolerate_deprecated_model
      = (.ok (arts.retrieve_instance_types model_id model_version (some scope)
            region tolerate_vulnerable_model tolerate_deprecated_model),
         [.instanceTypes model_id model_version (some scope) region
            tolerate_vulnerable_model tolerate_deprecated_model]) := by
  refine ⟨?_, ?_⟩ <;>
    simp [instance_types.retrieve_default, instance_types.retrieve, h]

/-- C10 witness: scope "bogus" is accepted and forwarded unchanged. -/
theorem scope_not_validated_against_enumeration_witness :
    sampleValidUtils.is_jumpstart_model_input (some "model") (some "1.0.0") = true ∧
    instance_types.retrieve sampleValidUtils sampleArtifacts none
        (some "model") (some "1.0.0") (some "bogus") false false
      = (.ok ["ml.p2.xlarge", "ml.p3.2xlarge"],
         [.instanceTypes (some "model") (some "1.0.0") (some "bogus")
            none false false]) :=
  ⟨rfl, (scope_not_validated_against_enumeration sampleValidUtils
    sampleArtifacts none (some "model") (some "1.0.0") "bogus"
    false false rfl).2⟩
